import Mathlib

/-!
# Verification of `rust-dhcp` client lease state machine

Shallow embedding of `src/client/src/state.rs` (the DHCP client state module):
the `DhcpState` enumeration, the mutable `State` record, the transition
dispatcher `transcend`, and the timing-interval derivation `set_times`.

Modelling conventions:
* Machine integers are `Nat`/`Int` with explicit reduction modulo `2 ^ 64`
  where the source performs a wrapping `as u64` cast.  The `u64` subtractions
  on lines 357 and 359 of `state.rs` are modelled with two's-complement
  wrapping semantics (Rust release-profile behaviour; a debug build would
  abort on underflow at the same point).
* The source reads the wall clock (`Utc::now().timestamp()`); every embedded
  operation that reads the clock takes the current timestamp `now : Int` as an
  explicit argument.
* `rand::random::<u32>()` in `State::new` is an environment effect; the drawn
  value is passed to `State.new` as the explicit argument `xid`.
* Panics (`panic_state!` on an unexpected transition, `expect!` on a missing
  message field) abort the process, so a panicking call never yields an
  observable successor state; `transcend` is embedded as returning
  `Except Panic State`, with `Except.error` for both panic macros.  Field
  updates the source performs before a panic are unobservable (the process
  dies) and are therefore discarded by the `Except.error` result.
* Timer objects (`Backoff`, `Forthon`, tokio `Delay`) live outside `src/`;
  the state machine only constructs them with specific parameters, so each
  timer slot is embedded as an `Option` holding the construction parameters in
  seconds: `Backoff`/`Forthon` as a pair (initial/duration, maximum/floor) and
  `Delay` as the single duration the deadline was armed with.
* Of the protocol `Message` record only the fields `state.rs` reads are
  embedded: `your_ip_address` and the four options named in the source.
-/

set_option maxHeartbeats 1600000

namespace RustDhcp

/-- Initial timeout in seconds for the BEB timers (`BACKOFF_TIMEOUT_INITIAL`). -/
def BACKOFF_TIMEOUT_INITIAL : Nat := 4

/-- Maximum timeout in seconds for the BEB timers (`BACKOFF_TIMEOUT_MAXIMUM`). -/
def BACKOFF_TIMEOUT_MAXIMUM : Nat := 64

/-- Minimal timeout in seconds for the Forthon timers (`FORTHON_TIMEOUT_MINIMAL`). -/
def FORTHON_TIMEOUT_MINIMAL : Nat := 60

/-- An IPv4 address, four octets. -/
structure Ipv4Addr where
  o1 : Nat
  o2 : Nat
  o3 : Nat
  o4 : Nat
deriving DecidableEq, Repr

/-- `Ipv4Addr::new(0, 0, 0, 0)`, the unspecified address. -/
def Ipv4Addr.zero : Ipv4Addr := ⟨0, 0, 0, 0⟩

/-- The DHCP message options read by `state.rs`: `dhcp_server_id`,
`address_time` (the address lease time, a `u32` seconds count),
`renewal_time` and `rebinding_time` (both optional `u32` seconds counts). -/
structure Options where
  dhcp_server_id : Option Ipv4Addr
  address_time : Option Nat
  renewal_time : Option Nat
  rebinding_time : Option Nat
deriving DecidableEq, Repr

/-- The projection of `dhcp_protocol::Message` consumed by `state.rs`:
`your_ip_address` and the options above. -/
structure Message where
  your_ip_address : Ipv4Addr
  options : Options
deriving DecidableEq, Repr

/-- RFC 2131 DHCP states, including the `*Sent` request-sent substates the
source adds to RFC 2131's eight states. -/
inductive DhcpState where
  | Init
  | Selecting
  | SelectingSent
  | Requesting
  | RequestingSent
  | InitReboot
  | Rebooting
  | RebootingSent
  | Bound
  | Renewing
  | RenewingSent
  | Rebinding
  | RebindingSent
deriving DecidableEq, Repr

/-- Mutable `Client` data (`struct State` in `state.rs`).  Timer handles hold
the construction parameters of the armed timer, in seconds. -/
structure State where
  dhcp_state : DhcpState
  is_broadcast : Bool
  transaction_id : Nat
  offered_address : Ipv4Addr
  offered_time : Nat
  dhcp_server_id : Option Ipv4Addr
  assigned_address : Ipv4Addr
  requested_at : Int
  renewal_after : Nat
  rebinding_after : Nat
  expiration_after : Nat
  timer_offer : Option (Nat × Nat)
  timer_ack : Option (Nat × Nat)
  timer_renewal : Option Nat
  timer_rebinding : Option (Nat × Nat)
  timer_expiration : Option (Nat × Nat)
deriving DecidableEq, Repr

/-- The modulus of the `u64` type. -/
def U64_MOD : Nat := 2 ^ 64

/-- The value an `i64 as u64` cast produces: the two's-complement
reinterpretation, i.e. the integer reduced modulo `2 ^ 64`. -/
def u64OfInt (v : Int) : Nat := (v % (U64_MOD : Int)).toNat

/-- Wrapping `u64` subtraction `a - b` (release-profile semantics of the `-`
operator on `u64` operands). -/
def wrapSub64 (a b : Nat) : Nat := u64OfInt ((a : Int) - (b : Int))

/-- Default `renewal_time` when the server omits the option:
`((expiration_time as f64) * RENEWAL_TIME_FACTOR) as u32` with
`RENEWAL_TIME_FACTOR = 0.5`.  For `E < 2 ^ 32`, `E` is exactly representable
in `f64` and multiplication by the power of two `0.5` is exact, so the
truncating float-to-integer cast yields exactly `E / 2` (floor division). -/
def defaultRenewalTime (expiration_time : Nat) : Nat := expiration_time / 2

/-- Default `rebinding_time` when the server omits the option:
`((expiration_time as f64) * REBINDING_TIME_FACTOR) as u32` with
`REBINDING_TIME_FACTOR = 0.875 = 7/8`.  For `E < 2 ^ 32`, `7 * E < 2 ^ 53`,
so the `f64` product is exactly the dyadic rational `7 * E / 8` and the
truncating cast yields exactly `7 * E / 8` (floor division). -/
def defaultRebindingTime (expiration_time : Nat) : Nat := 7 * expiration_time / 8

/-- `State::new`: constructs a default state.  The `rand::random::<u32>()`
transaction id is supplied by the environment as `xid`. -/
def State.new (dhcp_state : DhcpState) (server_address : Option Ipv4Addr)
    (is_broadcast : Bool) (xid : Nat) : State where
  dhcp_state := dhcp_state
  is_broadcast := is_broadcast
  transaction_id := xid
  offered_address := Ipv4Addr.zero
  offered_time := 0
  dhcp_server_id := server_address
  assigned_address := Ipv4Addr.zero
  requested_at := 0
  renewal_after := 0
  rebinding_after := 0
  expiration_after := 0
  timer_offer := none
  timer_ack := none
  timer_renewal := none
  timer_rebinding := none
  timer_expiration := none

/-- `State::set_broadcast` (marked `#[allow(dead_code)]` in the source and
never invoked by any transition). -/
def State.set_broadcast (s : State) (value : Bool) : State :=
  { s with is_broadcast := value }

/-- `State::set_offered_address`. -/
def State.set_offered_address (s : State) (value : Ipv4Addr) : State :=
  { s with offered_address := value }

/-- `State::set_offered_time`. -/
def State.set_offered_time (s : State) (value : Nat) : State :=
  { s with offered_time := value }

/-- `State::set_dhcp_server_id`. -/
def State.set_dhcp_server_id (s : State) (value : Option Ipv4Addr) : State :=
  { s with dhcp_server_id := value }

/-- `State::set_assigned_address`. -/
def State.set_assigned_address (s : State) (value : Ipv4Addr) : State :=
  { s with assigned_address := value }

/-- `State::record_request_time`: stamps `requested_at` with the current
Unix timestamp. -/
def State.record_request_time (s : State) (now : Int) : State :=
  { s with requested_at := now }

/-- `State::set_times`: derives the three countdown intervals from the
(optional) server-supplied `renewal_time` and `rebinding_time` and the
mandatory `expiration_time`, using `now - requested_at` as the elapsed
response latency.  Mirrors lines 344-360 of `state.rs`: the `i64 as u64`
cast and the two `u64` subtractions are the wrapping operations above. -/
def State.set_times (s : State) (now : Int) (renewal_time : Option Nat)
    (rebinding_time : Option Nat) (expiration_time : Nat) : State :=
  let renewal_time := renewal_time.getD (defaultRenewalTime expiration_time)
  let rebinding_time := rebinding_time.getD (defaultRebindingTime expiration_time)
  let renewal_after := u64OfInt ((renewal_time : Int) - (now - s.requested_at))
  let rebinding_after := wrapSub64 rebinding_time renewal_after
  let expiration_after := wrapSub64 (wrapSub64 expiration_time renewal_after) rebinding_after
  { s with
    renewal_after := renewal_after
    rebinding_after := rebinding_after
    expiration_after := expiration_after }

/-- `State::run_timer_offer`: arms the DHCPOFFER backoff timer with
`Backoff::new(4s, 64s)`. -/
def State.run_timer_offer (s : State) : State :=
  { s with timer_offer := some (BACKOFF_TIMEOUT_INITIAL, BACKOFF_TIMEOUT_MAXIMUM) }

/-- `State::run_timer_ack`: arms the DHCPACK/DHCPNAK backoff timer with
`Backoff::new(4s, 64s)`. -/
def State.run_timer_ack (s : State) : State :=
  { s with timer_ack := some (BACKOFF_TIMEOUT_INITIAL, BACKOFF_TIMEOUT_MAXIMUM) }

/-- `State::run_timer_renewal`: arms the T1 plain deadline timer
(`Delay`) `renewal_after` seconds from now. -/
def State.run_timer_renewal (s : State) : State :=
  { s with timer_renewal := some s.renewal_after }

/-- `State::run_timer_rebinding`: arms the T2 floor-guarded timer with
`Forthon::new(rebinding_after, 60s)`. -/
def State.run_timer_rebinding (s : State) : State :=
  { s with timer_rebinding := some (s.rebinding_after, FORTHON_TIMEOUT_MINIMAL) }

/-- `State::run_timer_expiration`: arms the expiration floor-guarded timer
with `Forthon::new(expiration_after, 60s)`. -/
def State.run_timer_expiration (s : State) : State :=
  { s with timer_expiration := some (s.expiration_after, FORTHON_TIMEOUT_MINIMAL) }

/-- The two panic sources of `transcend`: `panic_state!(from, to)` on an
unexpected transition and `expect!` on a missing response or option. -/
inductive Panic where
  | illegalState (src dst : DhcpState)
  | missingValue
deriving DecidableEq, Repr

/-- `State::transcend`: moves the client from one state to another.  The
nested `match src with ... match dst with ...` mirrors the Rust
`match from { ... match to { ... } }` dispatch; each wildcard arm is
`panic_state!`, each missing-`Option` check is an `expect!`, in source
order. -/
def State.transcend (s : State) (now : Int) (src dst : DhcpState)
    (response : Option Message) : Except Panic State :=
  match src, dst with
  | .Init, .Selecting =>
    .ok { (s.set_dhcp_server_id none).run_timer_offer with dhcp_state := .Selecting }
  | .Selecting, .SelectingSent =>
    .ok { s with dhcp_state := .SelectingSent }
  | .SelectingSent, .Selecting =>
    .ok { s with dhcp_state := .Selecting }
  | .SelectingSent, .Requesting =>
    match response with
    | none => .error .missingValue
    | some offer =>
      match offer.options.dhcp_server_id with
      | none => .error .missingValue
      | some sid =>
        match offer.options.address_time with
        | none => .error .missingValue
        | some atime =>
          .ok { ((((s.set_dhcp_server_id (some sid)).set_offered_address
                  offer.your_ip_address).set_offered_time atime).run_timer_ack) with
                dhcp_state := .Requesting }
  | .Requesting, .RequestingSent =>
    .ok { s.record_request_time now with dhcp_state := .RequestingSent }
  | .RequestingSent, .Init =>
    .ok { s with dhcp_state := .Init }
  | .RequestingSent, .Requesting =>
    .ok { s with dhcp_state := .Requesting }
  | .RequestingSent, .Bound =>
    match response with
    | none => .error .missingValue
    | some ack =>
      match ack.options.address_time with
      | none => .error .missingValue
      | some atime =>
        .ok { (((s.set_assigned_address ack.your_ip_address).set_times now
                ack.options.renewal_time ack.options.rebinding_time
                atime).run_timer_renewal) with
              dhcp_state := .Bound }
  | .InitReboot, .Rebooting =>
    .ok { s.run_timer_ack with dhcp_state := .Rebooting }
  | .Rebooting, .RebootingSent =>
    .ok { s.record_request_time now with dhcp_state := .RebootingSent }
  | .RebootingSent, .Init =>
    .ok { s with dhcp_state := .Init }
  | .RebootingSent, .Rebooting =>
    .ok { s with dhcp_state := .Rebooting }
  | .RebootingSent, .Bound =>
    match response with
    | none => .error .missingValue
    | some ack =>
      match ack.options.dhcp_server_id with
      | none => .error .missingValue
      | some sid =>
        match ack.options.address_time with
        | none => .error .missingValue
        | some atime =>
          .ok { ((((s.set_assigned_address ack.your_ip_address).set_dhcp_server_id
                  (some sid)).set_times now ack.options.renewal_time
                  ack.options.rebinding_time atime).run_timer_renewal) with
                dhcp_state := .Bound }
  | .Bound, .Renewing =>
    .ok { s.run_timer_rebinding with dhcp_state := .Renewing }
  | .Renewing, .RenewingSent =>
    .ok { s.record_request_time now with dhcp_state := .RenewingSent }
  | .RenewingSent, .Bound =>
    match response with
    | none => .error .missingValue
    | some ack =>
      match ack.options.dhcp_server_id with
      | none => .error .missingValue
      | some sid =>
        match ack.options.address_time with
        | none => .error .missingValue
        | some atime =>
          .ok { ((((s.set_assigned_address ack.your_ip_address).set_dhcp_server_id
                  (some sid)).set_times now ack.options.renewal_time
                  ack.options.rebinding_time atime).run_timer_renewal) with
                dhcp_state := .Bound }
  | .RenewingSent, .Renewing =>
    .ok { s with dhcp_state := .Renewing }
  | .RenewingSent, .Rebinding =>
    .ok { (s.set_dhcp_server_id none).run_timer_expiration with dhcp_state := .Rebinding }
  | .Rebinding, .RebindingSent =>
    .ok { s.record_request_time now with dhcp_state := .RebindingSent }
  | .RebindingSent, .Init =>
    .ok { s with dhcp_state := .Init }
  | .RebindingSent, .Bound =>
    match response with
    | none => .error .missingValue
    | some ack =>
      match ack.options.dhcp_server_id with
      | none => .error .missingValue
      | some sid =>
        match ack.options.address_time with
        | none => .error .missingValue
        | some atime =>
          .ok { ((((s.set_assigned_address ack.your_ip_address).set_dhcp_server_id
                  (some sid)).set_times now ack.options.renewal_time
                  ack.options.rebinding_time atime).run_timer_renewal) with
                dhcp_state := .Bound }
  | .RebindingSent, .Rebinding =>
    .ok { s with dhcp_state := .Rebinding }
  | f, t => .error (.illegalState f t)

/-- The legal edges of the transition table: exactly the `(from, to)` pairs
for which `transcend` has a non-`panic_state!` arm, read off the match arms of
`transcend` in `state.rs`. -/
def legalEdge (src dst : DhcpState) : Bool :=
  match src, dst with
  | .Init, .Selecting => true
  | .Selecting, .SelectingSent => true
  | .SelectingSent, .Selecting => true
  | .SelectingSent, .Requesting => true
  | .Requesting, .RequestingSent => true
  | .RequestingSent, .Init => true
  | .RequestingSent, .Requesting => true
  | .RequestingSent, .Bound => true
  | .InitReboot, .Rebooting => true
  | .Rebooting, .RebootingSent => true
  | .RebootingSent, .Init => true
  | .RebootingSent, .Rebooting => true
  | .RebootingSent, .Bound => true
  | .Bound, .Renewing => true
  | .Renewing, .RenewingSent => true
  | .RenewingSent, .Bound => true
  | .RenewingSent, .Renewing => true
  | .RenewingSent, .Rebinding => true
  | .Rebinding, .RebindingSent => true
  | .RebindingSent, .Init => true
  | .RebindingSent, .Bound => true
  | .RebindingSent, .Rebinding => true
  | _, _ => false

/-- The edges whose `transcend` arm consumes the response record (reads the
offer or acknowledgement through `expect!(response)`). -/
def consumingEdge (src dst : DhcpState) : Bool :=
  match src, dst with
  | .SelectingSent, .Requesting => true
  | .RequestingSent, .Bound => true
  | .RebootingSent, .Bound => true
  | .RenewingSent, .Bound => true
  | .RebindingSent, .Bound => true
  | _, _ => false

/-- The consuming edges whose arm records the server identifier from the
response (`expect!(...options.dhcp_server_id)`); `RequestingSent -> Bound`
does not record one. -/
def recordsServerId (src dst : DhcpState) : Bool :=
  match src, dst with
  | .SelectingSent, .Requesting => true
  | .RebootingSent, .Bound => true
  | .RenewingSent, .Bound => true
  | .RebindingSent, .Bound => true
  | _, _ => false

/-- The broadcast-only states of the claim about `dhcp_server_id`:
`SELECTING` and `REBINDING` together with their request-sent substates. -/
def broadcastOnlyState (st : DhcpState) : Bool :=
  match st with
  | .Selecting => true
  | .SelectingSent => true
  | .Rebinding => true
  | .RebindingSent => true
  | _ => false

/-- The states reachable from a freshly constructed `INIT` state by legal
`transcend` calls made by an honest caller (one that passes the current
`dhcp_state` as the `from` argument, as the client event loop does). -/
inductive Reachable : State → Prop where
  | start : ∀ (sa : Option Ipv4Addr) (b : Bool) (xid : Nat),
      Reachable (State.new .Init sa b xid)
  | step : ∀ (s : State) (now : Int) (dst : DhcpState) (resp : Option Message)
      (s' : State), Reachable s →
      s.transcend now s.dhcp_state dst resp = .ok s' → Reachable s'

/-- Extracts the successor state of a successful `transcend` call; the
fallback is never reached in the uses below. -/
def exceptGet (e : Except Panic State) : State :=
  match e with
  | .ok s => s
  | .error _ => State.new .Init none true 0

/-- A valid `DHCPOFFER` for address `10.0.0.5` with a 3600-second lease, no
renewal/rebinding options, from server `10.0.0.1`. -/
def demoOffer : Message where
  your_ip_address := ⟨10, 0, 0, 5⟩
  options :=
    { dhcp_server_id := some ⟨10, 0, 0, 1⟩
      address_time := some 3600
      renewal_time := none
      rebinding_time := none }

/-- The matching `DHCPACK`: same address, lease and omitted options. -/
def demoAck : Message where
  your_ip_address := ⟨10, 0, 0, 5⟩
  options :=
    { dhcp_server_id := some ⟨10, 0, 0, 1⟩
      address_time := some 3600
      renewal_time := none
      rebinding_time := none }

/-- An acknowledgement lacking the mandatory address lease time. -/
def noLeaseAck : Message where
  your_ip_address := ⟨10, 0, 0, 5⟩
  options :=
    { dhcp_server_id := some ⟨10, 0, 0, 1⟩
      address_time := none
      renewal_time := none
      rebinding_time := none }

/-- An offer lacking the server identifier. -/
def noServerIdOffer : Message where
  your_ip_address := ⟨10, 0, 0, 5⟩
  options :=
    { dhcp_server_id := none
      address_time := some 3600
      renewal_time := none
      rebinding_time := none }

/-- The state after `INIT -> SELECTING` starting from
`State.new .Init none true 42`. -/
def demoSelecting : State :=
  exceptGet ((State.new .Init none true 42).transcend 0 .Init .Selecting none)

/-- A `REQUESTING_SENT` state whose request was stamped at time 100, still
requiring broadcast responses. -/
def demoReqSent : State :=
  { State.new .RequestingSent none true 7 with requested_at := 100 }

/-- The acquisition scenario up to `REQUESTING`: discovery started at time 0,
the discover sent, the offer `demoOffer` selected. -/
def requestingRun : Except Panic State := do
  let s1 ← (State.new .Init none true 42).transcend 0 .Init .Selecting none
  let s2 ← s1.transcend 0 .Selecting .SelectingSent none
  s2.transcend 0 .SelectingSent .Requesting (some demoOffer)

/-- The full acquisition scenario: the request is transmitted at time 100 and
the matching acknowledgement `demoAck` is processed at time 101, one second
later. -/
def acquisitionRun : Except Panic State := do
  let s3 ← requestingRun
  let s4 ← s3.transcend 100 .Requesting .RequestingSent none
  s4.transcend 101 .RequestingSent .Bound (some demoAck)

/-! ## Arithmetic helper lemmas -/

theorem u64OfInt_natCast (n : Nat) (h : n < U64_MOD) : u64OfInt n = n := by
  simp only [u64OfInt, U64_MOD] at *
  omega

theorem wrapSub64_of_le (a b : Nat) (hb : b ≤ a) (ha : a < U64_MOD) :
    wrapSub64 a b = a - b := by
  simp only [wrapSub64, u64OfInt, U64_MOD] at *
  omega

theorem wrapSub64_of_lt (a b : Nat) (hab : a < b) (hb : b < U64_MOD) :
    wrapSub64 a b = U64_MOD - (b - a) := by
  simp only [wrapSub64, u64OfInt, U64_MOD] at *
  omega

/-- Characterization of `set_times` on inputs where no subtraction
underflows: with elapsed latency `e`, effective renewal time `R` and
effective rebinding time `B` satisfying `e ≤ R`, `R - e ≤ B ≤ E`, the stored
intervals are `R - e`, `B - (R - e)` and `E - B`. -/
theorem set_times_fields (s : State) (e : Nat) (rt rbt : Option Nat) (E : Nat)
    (hR : rt.getD (defaultRenewalTime E) < 2 ^ 32)
    (hE : E < 2 ^ 32)
    (hr : e ≤ rt.getD (defaultRenewalTime E))
    (hb : rt.getD (defaultRenewalTime E) - e ≤ rbt.getD (defaultRebindingTime E))
    (hbe : rbt.getD (defaultRebindingTime E) ≤ E) :
    (s.set_times (s.requested_at + (e : Int)) rt rbt E).renewal_after
      = rt.getD (defaultRenewalTime E) - e ∧
    (s.set_times (s.requested_at + (e : Int)) rt rbt E).rebinding_after
      = rbt.getD (defaultRebindingTime E)
        - (rt.getD (defaultRenewalTime E) - e) ∧
    (s.set_times (s.requested_at + (e : Int)) rt rbt E).expiration_after
      = E - rbt.getD (defaultRebindingTime E) := by
  simp only [State.set_times, wrapSub64, u64OfInt, U64_MOD] at *
  refine ⟨?_, ?_, ?_⟩ <;> omega

/-! ## State-machine helper lemmas -/

/-- A successful `transcend` call always lands in the requested destination
state: every non-panicking match arm ends with `self.dhcp_state = next` where
`next` is bound to the `to` argument. -/
theorem transcend_ok_state_eq (s : State) (now : Int) (src dst : DhcpState)
    (resp : Option Message) (s' : State)
    (h : s.transcend now src dst resp = .ok s') : s'.dhcp_state = dst := by
  cases src <;> cases dst <;> (try cases resp) <;>
    simp only [State.transcend] at h <;>
    (repeat' split at h) <;>
    first
      | exact (Except.noConfusion h)
      | (injection h with h; subst h; rfl)

/-- Any successful transition into a broadcast-only state either clears
`dhcp_server_id` or comes from a broadcast-only state and preserves the
field. -/
theorem transcend_server_id_protected (s : State) (now : Int) (src dst : DhcpState)
    (resp : Option Message) (s' : State)
    (h : s.transcend now src dst resp = .ok s')
    (hdst : broadcastOnlyState dst = true) :
    s'.dhcp_server_id = none ∨
      (broadcastOnlyState src = true ∧ s'.dhcp_server_id = s.dhcp_server_id) := by
  cases src <;> cases dst <;> simp only [broadcastOnlyState] at hdst <;>
    first
      | exact (Bool.noConfusion hdst)
      | (first
          | exact (Except.noConfusion h)
          | (injection h with h; subst h;
             first
               | (left; rfl)
               | (right; exact ⟨rfl, rfl⟩)))

/-- The reachability invariant behind the `dhcp_server_id` claim: in every
reachable state whose `dhcp_state` is broadcast-only, the server id is
absent. -/
theorem reachableServerIdInv (s : State) (hr : Reachable s)
    (hst : broadcastOnlyState s.dhcp_state = true) : s.dhcp_server_id = none := by
  induction hr with
  | start sa b xid => exact Bool.noConfusion hst
  | step t now dst resp t' ht hstep ih =>
    have hd := transcend_ok_state_eq t now t.dhcp_state dst resp t' hstep
    rw [hd] at hst
    rcases transcend_server_id_protected t now t.dhcp_state dst resp t' hstep hst with
      h1 | ⟨h2, h3⟩
    · exact h1
    · rw [h3]; exact ih h2

/-! ## Claim theorems -/

/-- Claim C1: for every pair of states `(from, to)` and every optional
response, `transcend` either matches a legal edge of the transition table or
fails fast with the `panic_state!` internal-consistency panic; a transition
outside the table is never silently applied, and a successful call implies
the edge is in the table. -/
theorem transcend_respects_table (s : State) (now : Int) (src dst : DhcpState)
    (resp : Option Message) :
    (legalEdge src dst = false →
      s.transcend now src dst resp = .error (.illegalState src dst)) ∧
    (∀ s', s.transcend now src dst resp = .ok s' → legalEdge src dst = true) := by
  constructor
  · intro h
    cases src <;> cases dst <;> first | rfl | (simp [legalEdge] at h)
  · intro s' h
    cases src <;> cases dst <;>
      first
        | rfl
        | exact Except.noConfusion h

/-- Witness for claim C1: the illegal edge `SELECTING -> BOUND` (an
acknowledgement arriving while in SELECTING) is a fatal panic. -/
theorem transcend_respects_table_witness :
    (State.new .Init none true 7).transcend 0 .Selecting .Bound none
      = .error (.illegalState .Selecting .Bound) :=
  (transcend_respects_table (State.new .Init none true 7) 0 .Selecting .Bound none).1 rfl

/-- Claim C2 (amended): with the server-omitted options, `set_times` uses the
truncated defaults `⌊0.5 E⌋` and `⌊0.875 E⌋ = ⌊7 E / 8⌋`; with elapsed 0 the
stored intervals are `⌊E / 2⌋`, `⌊7 E / 8⌋ - ⌊E / 2⌋` and `E - ⌊7 E / 8⌋`,
which equal `0.5 E`, `0.375 E` and `0.125 E` exactly when `8 ∣ E` (the
original claim asserted the exact factors for every `E`). -/
theorem set_times_default_factors (s : State) (E : Nat) (hE : E < 2 ^ 32) :
    (s.set_times s.requested_at none none E).renewal_after = E / 2 ∧
    (s.set_times s.requested_at none none E).rebinding_after = 7 * E / 8 - E / 2 ∧
    (s.set_times s.requested_at none none E).expiration_after = E - 7 * E / 8 ∧
    (8 ∣ E →
      ((s.set_times s.requested_at none none E).renewal_after : ℚ) = 0.5 * E ∧
      ((s.set_times s.requested_at none none E).rebinding_after : ℚ) = 0.375 * E ∧
      ((s.set_times s.requested_at none none E).expiration_after : ℚ) = 0.125 * E) := by
  have hfields := set_times_fields s 0 none none E
    (by simp [defaultRenewalTime]; omega) hE (by simp)
    (by simp [defaultRenewalTime, defaultRebindingTime]; omega)
    (by simp [defaultRebindingTime]; omega)
  rw [show s.requested_at + ((0 : Nat) : Int) = s.requested_at by simp] at hfields
  simp only [Option.getD, defaultRenewalTime, defaultRebindingTime, Nat.sub_zero] at hfields
  obtain ⟨h1, h2, h3⟩ := hfields
  refine ⟨h1, h2, h3, fun hdiv => ?_⟩
  obtain ⟨k, rfl⟩ := hdiv
  have e1 : 8 * k / 2 = 4 * k := by omega
  have e2 : 7 * (8 * k) / 8 = 7 * k := by omega
  rw [h1, h2, h3, e1, e2]
  have e3 : 7 * k - 4 * k = 3 * k := by omega
  have e4 : 8 * k - 7 * k = k := by omega
  rw [e3, e4]
  refine ⟨?_, ?_, ?_⟩ <;> push_cast <;> ring

/-- Counterexample for claim C2 as stated: at `E = 4` (elapsed 0, both
options omitted) the stored `rebinding_after` is `1`, but `0.375 × E = 1.5`;
the exact-factor claim fails for `E` not divisible by 8. -/
theorem set_times_rebinding_factor_cex :
    ((State.new .Init none true 0).set_times 0 none none 4).rebinding_after = 1 ∧
    (0.375 : ℚ) * 4 ≠ (1 : ℚ) :=
  ⟨rfl, by norm_num⟩

/-- Witness for claim C2: at `E = 3600` (divisible by 8) the stored
intervals are `1800`, `1350` and `450`, and `1800` is exactly `0.5 × 3600`. -/
theorem set_times_default_factors_witness :
    ((State.new .Init none true 0).set_times 0 none none 3600).renewal_after = 1800 ∧
    ((State.new .Init none true 0).set_times 0 none none 3600).rebinding_after = 1350 ∧
    ((State.new .Init none true 0).set_times 0 none none 3600).expiration_after = 450 ∧
    (((State.new .Init none true 0).set_times 0 none none 3600).renewal_after : ℚ)
      = 0.5 * (3600 : ℚ) := by
  have h := set_times_default_factors (State.new .Init none true 0) 3600 (by norm_num)
  have hd := h.2.2.2 (by norm_num)
  exact ⟨h.1, h.2.1, h.2.2.1, by simpa using hd.1⟩

/-- Claim C3 (amended): whenever no subtraction underflows, the three stored
intervals sum to exactly the server-granted lease duration `E` — the
subtractions telescope, so the sum is NOT net of the elapsed response
latency as the original claim stated. -/
theorem set_times_sum_eq_lease (s : State) (e : Nat) (rt rbt : Option Nat) (E : Nat)
    (hR : rt.getD (defaultRenewalTime E) < 2 ^ 32) (hE : E < 2 ^ 32)
    (hr : e ≤ rt.getD (defaultRenewalTime E))
    (hb : rt.getD (defaultRenewalTime E) - e ≤ rbt.getD (defaultRebindingTime E))
    (hbe : rbt.getD (defaultRebindingTime E) ≤ E) :
    (s.set_times (s.requested_at + (e : Int)) rt rbt E).renewal_after
      + (s.set_times (s.requested_at + (e : Int)) rt rbt E).rebinding_after
      + (s.set_times (s.requested_at + (e : Int)) rt rbt E).expiration_after = E := by
  obtain ⟨h1, h2, h3⟩ := set_times_fields s e rt rbt E hR hE hr hb hbe
  rw [h1, h2, h3]
  omega

/-- Counterexample for claim C3 as stated: with lease `3600` and elapsed
latency `1`, the stored intervals sum to `3600`, not to the net value
`3600 - 1`. -/
theorem set_times_sum_not_net_cex :
    ((State.new .Init none true 0).set_times 1 none none 3600).renewal_after
      + ((State.new .Init none true 0).set_times 1 none none 3600).rebinding_after
      + ((State.new .Init none true 0).set_times 1 none none 3600).expiration_after = 3600 ∧
    (3600 : Nat) ≠ 3600 - 1 :=
  ⟨rfl, by decide⟩

/-- Witness for claim C3: at lease `3600`, elapsed `1`, both options
omitted, the sum is `3600`. -/
theorem set_times_sum_eq_lease_witness :
    ((State.new .Init none true 0).set_times 1 none none 3600).renewal_after
      + ((State.new .Init none true 0).set_times 1 none none 3600).rebinding_after
      + ((State.new .Init none true 0).set_times 1 none none 3600).expiration_after = 3600 :=
  set_times_sum_eq_lease (State.new .Init none true 0) 1 none none 3600
    (by decide) (by decide) (by decide) (by decide) (by decide)

/-- Claim C4 (amended): the end-to-end acquisition scenario (offer for
`10.0.0.5` with lease 3600 and no T1/T2, acknowledgement processed 1 second
after the request was sent) reaches BOUND with
`assigned_address = 10.0.0.5`, `renewal_after = 1799`,
`rebinding_after = 1351` (not 1350 as originally claimed) and
`expiration_after = 450`. -/
theorem acquisition_scenario_values :
    (exceptGet requestingRun).dhcp_state = .Requesting ∧
    (exceptGet requestingRun).offered_address = ⟨10, 0, 0, 5⟩ ∧
    (exceptGet requestingRun).offered_time = 3600 ∧
    (exceptGet requestingRun).timer_ack = some (4, 64) ∧
    (exceptGet acquisitionRun).dhcp_state = .Bound ∧
    (exceptGet acquisitionRun).assigned_address = ⟨10, 0, 0, 5⟩ ∧
    (exceptGet acquisitionRun).renewal_after = 1799 ∧
    (exceptGet acquisitionRun).rebinding_after = 1351 ∧
    (exceptGet acquisitionRun).expiration_after = 450 :=
  ⟨rfl, rfl, rfl, rfl, rfl, rfl, rfl, rfl, rfl⟩

/-- Counterexample for claim C4 as stated: the scenario's stored
`rebinding_after` is `1351` (`⌊0.875 × 3600⌋ - 1799 = 3150 - 1799`), not the
claimed `1350`. -/
theorem acquisition_rebinding_after_cex :
    (exceptGet acquisitionRun).rebinding_after = 1351 ∧ (1351 : Nat) ≠ 1350 :=
  ⟨rfl, by decide⟩

/-- Claim C5 (amended): the `REQUESTING_SENT -> BOUND` transition on an
acknowledgement records the assigned address from the ack, derives the three
countdown intervals exactly as `set_times` does, and arms the T1 plain
renewal timer with the derived `renewal_after`; the broadcast flag is left
UNCHANGED (the original claim said it is cleared, but `set_broadcast` is
dead code and no transition calls it). -/
theorem requesting_to_bound_effects (s : State) (now : Int) (ack : Message)
    (E : Nat) (s' : State) (hE : ack.options.address_time = some E)
    (h : s.transcend now .RequestingSent .Bound (some ack) = .ok s') :
    s'.dhcp_state = .Bound ∧
    s'.assigned_address = ack.your_ip_address ∧
    s'.renewal_after
      = (s.set_times now ack.options.renewal_time ack.options.rebinding_time E).renewal_after ∧
    s'.rebinding_after
      = (s.set_times now ack.options.renewal_time ack.options.rebinding_time E).rebinding_after ∧
    s'.expiration_after
      = (s.set_times now ack.options.renewal_time ack.options.rebinding_time E).expiration_after ∧
    s'.timer_renewal = some s'.renewal_after ∧
    s'.is_broadcast = s.is_broadcast := by
  simp only [State.transcend, hE] at h
  injection h with h
  subst h
  refine ⟨rfl, rfl, ?_, ?_, ?_, rfl, rfl⟩ <;>
    simp [State.set_times, State.set_assigned_address, State.run_timer_renewal]

/-- Counterexample for claim C5 as stated: entering BOUND from a
still-broadcasting `REQUESTING_SENT` state leaves `is_broadcast = true`; the
flag is not cleared. -/
theorem bound_keeps_broadcast_cex :
    (exceptGet (demoReqSent.transcend 101 .RequestingSent .Bound (some demoAck))).is_broadcast
      = true ∧ true ≠ false :=
  ⟨rfl, by decide⟩

/-- Witness for claim C5: the concrete `demoReqSent`/`demoAck` transition
into BOUND. -/
theorem requesting_to_bound_effects_witness :
    (exceptGet (demoReqSent.transcend 101 .RequestingSent .Bound (some demoAck))).dhcp_state
      = .Bound ∧
    (exceptGet (demoReqSent.transcend 101 .RequestingSent .Bound (some demoAck))).assigned_address
      = demoAck.your_ip_address ∧
    (exceptGet (demoReqSent.transcend 101 .RequestingSent .Bound (some demoAck))).renewal_after
      = (demoReqSent.set_times 101 demoAck.options.renewal_time
          demoAck.options.rebinding_time 3600).renewal_after ∧
    (exceptGet (demoReqSent.transcend 101 .RequestingSent .Bound (some demoAck))).rebinding_after
      = (demoReqSent.set_times 101 demoAck.options.renewal_time
          demoAck.options.rebinding_time 3600).rebinding_after ∧
    (exceptGet (demoReqSent.transcend 101 .RequestingSent .Bound (some demoAck))).expiration_after
      = (demoReqSent.set_times 101 demoAck.options.renewal_time
          demoAck.options.rebinding_time 3600).expiration_after ∧
    (exceptGet (demoReqSent.transcend 101 .RequestingSent .Bound (some demoAck))).timer_renewal
      = some (exceptGet (demoReqSent.transcend 101 .RequestingSent .Bound
          (some demoAck))).renewal_after ∧
    (exceptGet (demoReqSent.transcend 101 .RequestingSent .Bound (some demoAck))).is_broadcast
      = demoReqSent.is_broadcast :=
  requesting_to_bound_effects demoReqSent 101 demoAck 3600
    (exceptGet (demoReqSent.transcend 101 .RequestingSent .Bound (some demoAck))) rfl rfl

/-- Claim C6: on every response-consuming edge, a missing response, a
missing address lease time, or (where the edge records one) a missing server
identifier aborts the transition with the `expect!` panic rather than
substituting a guessed value. -/
theorem missing_field_fatal (src dst : DhcpState) (s : State) (now : Int)
    (m : Message) (hc : consumingEdge src dst = true) :
    s.transcend now src dst none = .error .missingValue ∧
    (m.options.address_time = none →
      s.transcend now src dst (some m) = .error .missingValue) ∧
    (recordsServerId src dst = true → m.options.dhcp_server_id = none →
      s.transcend now src dst (some m) = .error .missingValue) := by
  cases src <;> cases dst <;> simp only [consumingEdge] at hc <;>
    first
      | exact (Bool.noConfusion hc)
      | (refine ⟨rfl, fun ha => ?_, fun hrec hsid => ?_⟩ <;>
          (try exact (Bool.noConfusion hrec)) <;>
          (try (rcases hs : m.options.dhcp_server_id with _ | sid)) <;>
          simp_all [State.transcend])

/-- Witness for claim C6: an acknowledgement without the lease time, an
offer without the server id, and an absent response are each fatal. -/
theorem missing_field_fatal_witness :
    demoReqSent.transcend 101 .RequestingSent .Bound (some noLeaseAck)
      = .error .missingValue ∧
    (State.new .SelectingSent none true 7).transcend 0 .SelectingSent .Requesting
      (some noServerIdOffer) = .error .missingValue ∧
    demoReqSent.transcend 101 .RequestingSent .Bound none = .error .missingValue :=
  ⟨(missing_field_fatal .RequestingSent .Bound demoReqSent 101 noLeaseAck rfl).2.1 rfl,
   (missing_field_fatal .SelectingSent .Requesting (State.new .SelectingSent none true 7) 0
      noServerIdOffer rfl).2.2 rfl rfl,
   (missing_field_fatal .RequestingSent .Bound demoReqSent 101 noLeaseAck rfl).1⟩

/-- Claim C7: in every state reachable from INIT by legal transitions,
`dhcp_server_id` is absent while the current state is SELECTING or REBINDING
(including their request-sent substates): the field is cleared on the edges
entering those states from outside (`INIT -> SELECTING`,
`RENEWING_SENT -> REBINDING`) and only preserved, already absent, on the
edges cycling inside them. -/
theorem selecting_rebinding_server_id_none (s : State) (hr : Reachable s)
    (hst : s.dhcp_state = .Selecting ∨ s.dhcp_state = .SelectingSent ∨
      s.dhcp_state = .Rebinding ∨ s.dhcp_state = .RebindingSent) :
    s.dhcp_server_id = none := by
  refine reachableServerIdInv s hr ?_
  rcases hst with h | h | h | h <;> rw [h] <;> rfl

/-- Witness for claim C7: the reachable state after `INIT -> SELECTING` has
no server id. -/
theorem selecting_rebinding_server_id_none_witness :
    demoSelecting.dhcp_server_id = none :=
  selecting_rebinding_server_id_none demoSelecting
    (Reachable.step (State.new .Init none true 42) 0 .Selecting none demoSelecting
      (Reachable.start none true 42) rfl)
    (Or.inl rfl)

/-- Claim C8 (amended): the transition engine never touches
`transaction_id`: every successful `transcend` call, the `INIT -> SELECTING`
edge included, leaves it unchanged; a fresh random id is drawn only when a
`State` is constructed (`State::new`). -/
theorem transcend_never_regenerates_xid (s : State) (now : Int) (src dst : DhcpState)
    (resp : Option Message) (s' : State)
    (h : s.transcend now src dst resp = .ok s') :
    s'.transaction_id = s.transaction_id := by
  cases src <;> cases dst <;> (try cases resp) <;>
    simp only [State.transcend] at h <;>
    (repeat' split at h) <;>
    first
      | exact (Except.noConfusion h)
      | (injection h with h; subst h; rfl)

/-- Counterexample for claim C8 as stated: the `INIT -> SELECTING`
transition from a state with transaction id `42` yields transaction id `42`
again — the id is kept, not regenerated. -/
theorem init_selecting_keeps_xid_cex :
    demoSelecting.transaction_id = (State.new .Init none true 42).transaction_id ∧
    demoSelecting.transaction_id = 42 :=
  ⟨rfl, rfl⟩

/-- Witness for claim C8: the `INIT -> SELECTING` instance of the
preservation theorem. -/
theorem transcend_never_regenerates_xid_witness :
    demoSelecting.transaction_id = (State.new .Init none true 42).transaction_id :=
  transcend_never_regenerates_xid (State.new .Init none true 42) 0 .Init .Selecting none
    demoSelecting rfl

/-- Claim C9: `set_times` applies no clamp: with server-supplied
`renewal_time = 5` but elapsed latency `10`, the stored `renewal_after` is
the negative difference reduced modulo `2 ^ 64` (`2 ^ 64 - 5`, a
pathologically large count, not zero); likewise a `rebinding_time = 50`
smaller than the computed `renewal_after = 100` stores `2 ^ 64 - 50`.
`set_times` is a total function — neither case is rejected. -/
theorem set_times_no_clamp_wraps :
    ((State.new .Init none true 0).set_times 10 (some 5) (some 3150) 3600).renewal_after
      = U64_MOD - 5 ∧
    ((State.new .Init none true 0).set_times 10 (some 5) (some 3150) 3600).renewal_after ≠ 0 ∧
    ((State.new .Init none true 0).set_times 0 (some 100) (some 50) 3600).rebinding_after
      = U64_MOD - 50 ∧
    ((State.new .Init none true 0).set_times 0 (some 100) (some 50) 3600).rebinding_after ≠ 0 := by
  refine ⟨?_, ?_, ?_, ?_⟩ <;> decide

/-- Claim C10: whenever `transcend` returns successfully, the resulting
`dhcp_state` is exactly the requested destination `to`; the dispatch never
lands in a different state than the one named. -/
theorem transcend_lands_in_dst (s : State) (now : Int) (src dst : DhcpState)
    (resp : Option Message) (s' : State)
    (h : s.transcend now src dst resp = .ok s') : s'.dhcp_state = dst :=
  transcend_ok_state_eq s now src dst resp s' h

/-- Witness for claim C10: `BOUND -> RENEWING` lands in RENEWING. -/
theorem transcend_lands_in_dst_witness :
    (exceptGet ((State.new .Bound none false 9).transcend 0 .Bound .Renewing none)).dhcp_state
      = .Renewing :=
  transcend_lands_in_dst (State.new .Bound none false 9) 0 .Bound .Renewing none
    (exceptGet ((State.new .Bound none false 9).transcend 0 .Bound .Renewing none)) rfl

end RustDhcp
